import Mathlib

/-!
Verification of the AI avatar stream backend.

This file gives a shallow embedding, in Lean 4, of the parts of the
repository the behavioural claims talk about:

* the `StreamManager` state machine of
  `backend/services/stream_manager.py` (`start_stream`, `stop_stream`,
  `get_status`, the worker loop `_run_stream`);
* the retry decorator `retry_with_backoff` of `utils/retry.py`;
* the dialogue generator `generate_response` / `reset_history` of
  `dialogue.py`;
* the ElevenLabs wrapper `text_to_speech` of `core/tts.py`.

External effects (the Groq and ElevenLabs calls, file writes, audio
playback, OBS) are modelled as oracles: an environment supplies, per
attempt or per turn, which outcome the effectful call produced, and the
embedding reproduces the Python control flow over those outcomes.  All
Python-side mutation is explicit state passing.  The bodies of
`start_stream` and `stop_stream` run entirely under `self._lock`
(a `threading.Lock`), so each call is atomic with respect to the other:
an interleaving of two calls is one of the two sequential orders, which
is how the concurrency claims are stated.
-/

namespace AvatarStream

/-- `config.TOPICS`: the configured discussion topic set. -/
def TOPICS : List String :=
  ["Why do different organs age at different rates?",
   "Are epigenetic clocks accurate for measuring biological age?",
   "Can caloric restriction really extend lifespan in humans?",
   "What\x27s the role of senescent cells in aging?",
   "Is aging a disease that can be cured?",
   "Do telomeres really determine our lifespan?",
   "Can rapamycin extend human healthspan?",
   "What causes mitochondrial dysfunction in aging?"]

/-- `config.MAX_TURNS`. -/
def MAX_TURNS : Nat := 5

/-- `config.TOPIC_SWITCH_EVERY`. -/
def TOPIC_SWITCH_EVERY : Nat := 8

/-- Python `l[-n:]`: the last `n` elements of a list. -/
def lastN (n : Nat) (l : List α) : List α := l.drop (l.length - n)

/-- The mutable fields of the `StreamManager` singleton that the claims
are about.  `stop_flag` models `self.stop_flag` (a `threading.Event`):
`true` means the event is set. -/
structure StreamState where
  is_running : Bool
  current_turn : Nat
  current_topic : String
  max_turns : Nat
  errors : List String
  stop_flag : Bool
deriving DecidableEq, Repr

/-- The dictionary returned by `StreamManager.get_status`. -/
structure Status where
  is_running : Bool
  current_turn : Nat
  current_topic : String
  max_turns : Nat
  errors : List String
deriving DecidableEq, Repr

/-- `StreamManager.get_status`: a snapshot of the state; `errors` is
truncated to the last 10 entries (`self.errors[-10:]`). -/
def get_status (s : StreamState) : Status :=
  { is_running := s.is_running
    current_turn := s.current_turn
    current_topic := s.current_topic
    max_turns := s.max_turns
    errors := lastN 10 s.errors }

/-- The state set up by `StreamManager.__init__`. -/
def initState : StreamState :=
  { is_running := false
    current_turn := 0
    current_topic := ""
    max_turns := MAX_TURNS
    errors := []
    stop_flag := false }

/-- The dictionary returned by `start_stream` (`success`, `message`,
`status`). -/
structure StartResult where
  success : Bool
  message : String
  status : Status
deriving DecidableEq, Repr

/-- Result of one `start_stream` call: the returned dictionary, the
manager state after the call, and whether a worker thread was spawned
(`threading.Thread(...).start()` was executed). -/
structure StartOutcome where
  result : StartResult
  state : StreamState
  spawned : Bool
deriving DecidableEq, Repr

/-- `StreamManager.start_stream`.  The whole body runs under
`self._lock`, so a call is one atomic transition on the state. -/
def start_stream (s : StreamState) (max_turns : Nat) : StartOutcome :=
  if s.is_running then
    { result :=
        { success := false
          message := "Stream is already running"
          status := get_status s }
      state := s
      spawned := false }
  else
    let s' : StreamState :=
      { s with
        max_turns := max_turns
        current_turn := 0
        current_topic := ""
        errors := []
        stop_flag := false
        is_running := true }
    { result :=
        { success := true
          message := s!"Stream started successfully with {max_turns} turns"
          status := get_status s' }
      state := s'
      spawned := true }

/-- The dictionary returned by `stop_stream` (`success`, `message`; no
`status` key). -/
structure StopResult where
  success : Bool
  message : String
deriving DecidableEq, Repr

/-- Result of one `stop_stream` call. -/
structure StopOutcome where
  result : StopResult
  state : StreamState
deriving DecidableEq, Repr

/-- `StreamManager.stop_stream`.  The whole body runs under
`self._lock`. -/
def stop_stream (s : StreamState) : StopOutcome :=
  if !s.is_running then
    { result :=
        { success := false
          message := "No stream is currently running" }
      state := s }
  else
    { result :=
        { success := true
          message := "Stream stopping..." }
      state := { s with stop_flag := true } }

/-- Two `start_stream` calls serialized by `self._lock`: the first call
sees `s`, the second sees the first call\x27s post-state.  The two
possible interleavings of two concurrent calls are `twoStarts s m1 m2`
and `twoStarts s m2 m1`. -/
def twoStarts (s : StreamState) (m1 m2 : Nat) : StartOutcome × StartOutcome :=
  let a := start_stream s m1
  let b := start_stream a.state m2
  (a, b)

/-- The delay slept before retry number `attempt + 1` in
`utils/retry.py`: `base_delay * (exponential_base ** attempt)`. -/
def backoffDelay (base expBase : ℚ) (attempt : Nat) : ℚ :=
  base * expBase ^ attempt

/-- The loop body of the wrapper in `retry_with_backoff`
(`for attempt in range(max_retries + 1)`).  `f attempt` is the outcome
of calling the wrapped function on that attempt (`.ok` a return value,
`.error` a raised exception); `retryable e` is membership of the raised
exception in the `exceptions` tuple.  Returns the overall outcome and
the list of `time.sleep` delays performed, in order.  `fuel` is
`max_retries - attempt`, so the `0` fallback of the inner `match` is
never reached (the `attempt = max_retries` test fires first). -/
def retryGo (retryable : ε → Bool) (base expBase : ℚ)
    (f : Nat → Except ε α) (max_retries : Nat) :
    Nat → Nat → Except ε α × List ℚ
  | attempt, fuel =>
    match f attempt with
    | .ok v => (.ok v, [])
    | .error e =>
      if retryable e then
        if attempt = max_retries then (.error e, [])
        else
          match fuel with
          | 0 => (.error e, [])
          | fuel' + 1 =>
            let rest := retryGo retryable base expBase f max_retries (attempt + 1) fuel'
            (rest.1, backoffDelay base expBase attempt :: rest.2)
      else (.error e, [])

/-- `utils/retry.py` `retry_with_backoff(max_retries, base_delay,
exponential_base, exceptions)` applied to a function whose per-attempt
outcomes are given by `f`. -/
def retry_with_backoff (max_retries : Nat) (base expBase : ℚ)
    (retryable : ε → Bool) (f : Nat → Except ε α) : Except ε α × List ℚ :=
  retryGo retryable base expBase f max_retries 0 max_retries

/-- The fallback utterance of `dialogue.generate_response`. -/
def FALLBACK : String := "I need a moment to think about that."

/-- Which outcome the body of `generate_response` runs into on one
attempt: a successful Groq completion, or one of the three caught
exception classes. -/
inductive GenOutcome where
  | ok (text : String)
  | rateLimit (msg : String)
  | apiError (msg : String)
  | unexpected (msg : String)
deriving DecidableEq, Repr

/-- The only exception `generate_response` lets escape to its retry
decorator: `RateLimitError` is re-raised, `APIError` and bare
`Exception` are swallowed inside the function. -/
inductive GenExc where
  | rateLimit (msg : String)
deriving DecidableEq, Repr

/-- `dialogue.generate_response` body (one attempt): on success the
reply is appended to `conversation_history` and returned; on
`RateLimitError` the exception is re-raised (for the decorator); on
`APIError` or any other `Exception` the fixed fallback is appended and
returned instead.  The pair is (returned text, history after the
call). -/
def generate_response (history : List String) (outcome : GenOutcome) :
    Except GenExc (String × List String) :=
  match outcome with
  | .ok text => .ok (text, history ++ [text])
  | .rateLimit msg => .error (.rateLimit msg)
  | .apiError _ => .ok (FALLBACK, history ++ [FALLBACK])
  | .unexpected _ => .ok (FALLBACK, history ++ [FALLBACK])

/-- `dialogue.reset_history`: `conversation_history.clear()`. -/
def reset_history (_history : List String) : List String := []

/-- `generate_response` as decorated in `dialogue.py`:
`@retry_with_backoff(max_retries=3, base_delay=1,
exceptions=(RateLimitError, APIError, Exception))` — every exception
class is retryable.  A `RateLimitError` raised by an attempt does not
touch `conversation_history` (the append happens only after the API
call returns), so each attempt sees the same history. -/
def generateWithRetry (history : List String) (outcomes : Nat → GenOutcome) :
    Except GenExc (String × List String) × List ℚ :=
  retry_with_backoff 3 1 2 (fun _ => true)
    (fun attempt => generate_response history (outcomes attempt))

/-- Character-list prefix test (Python `str.startswith`). -/
def charsStartWith : List Char → List Char → Bool
  | _, [] => true
  | [], _ :: _ => false
  | a :: as, b :: bs => a == b && charsStartWith as bs

/-- Python `needle in haystack` on strings: substring test over the
underlying character lists. -/
def strContains (haystack needle : String) : Bool :=
  (List.range (haystack.data.length + 1)).any
    (fun i => charsStartWith (haystack.data.drop i) needle.data)

/-- Python `str.lower()` (ASCII case folding, which covers the
`"quota"` check of `core/tts.py`). -/
def lowerStr (s : String) : String :=
  ⟨s.data.map Char.toLower⟩

/-- Which outcome the body of `core/tts.py text_to_speech` runs into on
one attempt: conversion and file write succeeded (with `fileCreated`
the result of the `os.path.exists` check), or one of the caught
exception classes (`ElevenLabsAPIError` with its message, `OSError`,
or any other `Exception`). -/
inductive TtsOutcome where
  | success (fileCreated : Bool)
  | apiError (msg : String)
  | osError (msg : String)
  | otherExc (msg : String)
deriving DecidableEq, Repr

/-- The exceptions `text_to_speech` lets escape to its retry decorator:
non-quota `ElevenLabsAPIError`s and unexpected `Exception`s are
re-raised; quota errors and `OSError` are swallowed (return `False`). -/
inductive TtsExc where
  | api (msg : String)
  | other (msg : String)
deriving DecidableEq, Repr

/-- `core/tts.py text_to_speech` body (one attempt): returns whether an
audio file was produced, or raises.  A quota-mentioning
`ElevenLabsAPIError` (`"quota" in str(e).lower()`) and an `OSError`
return `False`; any other `ElevenLabsAPIError` or `Exception` is
re-raised for the decorator. -/
def text_to_speech (outcome : TtsOutcome) : Except TtsExc Bool :=
  match outcome with
  | .success fileCreated => if !fileCreated then .ok false else .ok true
  | .apiError msg =>
    if strContains (lowerStr msg) "quota" then .ok false
    else .error (.api msg)
  | .osError _ => .ok false
  | .otherExc msg => .error (.other msg)

/-- `text_to_speech` as decorated in `core/tts.py`:
`@retry_with_backoff(max_retries=3, base_delay=1,
exceptions=(Exception,))`. -/
def ttsWithRetry (outcomes : Nat → TtsOutcome) : Except TtsExc Bool × List ℚ :=
  retry_with_backoff 3 1 2 (fun _ => true)
    (fun attempt => text_to_speech (outcomes attempt))

/-- How one iteration of the main loop of `_run_stream` went, as far as
the collaborators are concerned:
* `ok text` — `generate_response` returned `text` (appending it to the
  history) and `text_to_speech` returned `True`;
* `ttsFailed text` — `generate_response` returned `text` but
  `text_to_speech` returned `False` (the `continue` path);
* `raisedExc msg` — some call in the turn body raised an exception with
  message `msg` (the per-turn `except` path). -/
inductive TurnOutcome where
  | ok (text : String)
  | ttsFailed (text : String)
  | raisedExc (msg : String)
deriving DecidableEq, Repr

/-- The variables the main loop of `_run_stream` works on: the
manager fields it mutates (`current_turn`, `current_topic`, `errors`),
the local counters `successful_turns` / `failed_turns`, the module
global `conversation_history` of `dialogue.py`, and the list of turn
indices at which a topic switch fired (for bookkeeping). -/
structure LoopState where
  current_turn : Nat
  current_topic : String
  errors : List String
  successful_turns : Nat
  failed_turns : Nat
  history : List String
  switches : List Nat
deriving DecidableEq, Repr

/-- The topic-switch condition of `_run_stream`:
`(turn + 1) % TOPIC_SWITCH_EVERY == 0 and turn < self.max_turns - 2`
(the subtraction is over the integers, as in Python). -/
def switchCond (tse max_turns turn : Nat) : Bool :=
  ((turn + 1) % tse == 0) && decide ((turn : Int) < (max_turns : Int) - 2)

/-- One iteration of the main loop of `_run_stream`, turn index `turn`
(0-based), with outcome `outcome`.  `choose` is the oracle for
`random.choice`.  On the `ok` path, after `successful_turns += 1` and
the pause, the topic switch fires when `switchCond` holds: the new
topic is `random.choice([t for t in TOPICS if t != self.current_topic])`
and `reset_history()` clears the history. -/
def doTurn (topics : List String) (tse max_turns : Nat)
    (choose : List String → String) (turn : Nat)
    (outcome : TurnOutcome) (st : LoopState) : LoopState :=
  let st := { st with current_turn := turn + 1 }
  match outcome with
  | .ttsFailed text =>
    { st with
      history := st.history ++ [text]
      failed_turns := st.failed_turns + 1
      errors := st.errors ++ [s!"Turn {turn + 1}: TTS failed"] }
  | .raisedExc msg =>
    { st with
      failed_turns := st.failed_turns + 1
      errors := st.errors ++ [s!"Turn {turn + 1}: {msg}"] }
  | .ok text =>
    let st := { st with
      history := st.history ++ [text]
      successful_turns := st.successful_turns + 1 }
    if switchCond tse max_turns turn then
      { st with
        current_topic := choose (topics.filter (fun t => t ≠ st.current_topic))
        history := reset_history st.history
        switches := st.switches ++ [turn] }
    else st

/-- The main loop `for turn in range(self.max_turns)` of `_run_stream`.
`stopFlag turn` is what `self.stop_flag.is_set()` returns when checked
at the top of iteration `turn`; a set flag breaks out of the loop.
`fuel` is the number of iterations left (`max_turns - turn`). -/
def runLoopAux (topics : List String) (tse max_turns : Nat)
    (choose : List String → String) (outcomes : Nat → TurnOutcome)
    (stopFlag : Nat → Bool) : Nat → Nat → LoopState → LoopState
  | _, 0, st => st
  | turn, fuel + 1, st =>
    if stopFlag turn then st
    else
      runLoopAux topics tse max_turns choose outcomes stopFlag
        (turn + 1) fuel (doTurn topics tse max_turns choose turn (outcomes turn) st)

/-- The main loop of `_run_stream`, started at turn 0. -/
def runLoop (topics : List String) (tse max_turns : Nat)
    (choose : List String → String) (outcomes : Nat → TurnOutcome)
    (stopFlag : Nat → Bool) (st : LoopState) : LoopState :=
  runLoopAux topics tse max_turns choose outcomes stopFlag 0 max_turns st

/-- The oracles a whole `_run_stream` execution consumes:
* `setupExc` — `some msg` when some call before the main loop
  (directory creation, transcript init, OBS connect, idle-animation
  start, the opening TTS machinery) raises an exception with message
  `msg`, caught only by the outer `except`;
* `choose` — `random.choice`;
* `outcomes` — per-turn collaborator outcomes;
* `stopFlag` — the stop-flag observations at each turn boundary;
* `openingTtsOk` — whether the opening `text_to_speech` returned
  `True` (affects only logging/playback, no tracked state);
* `initHistory` — `dialogue.conversation_history` at thread start. -/
structure RunEnv where
  setupExc : Option String
  choose : List String → String
  outcomes : Nat → TurnOutcome
  stopFlag : Nat → Bool
  openingTtsOk : Bool
  initHistory : List String

/-- What a whole `_run_stream` execution produced: the manager state
when the thread ends, the two local counters, whether
`stop_idle_animation()` was executed, and the loop bookkeeping. -/
structure RunOutcome where
  state : StreamState
  successful_turns : Nat
  failed_turns : Nat
  idle_stopped : Bool
  history : List String
  switches : List Nat

/-- The `finally` block of `_run_stream`: under the lock, set
`is_running = False` and `current_turn = 0`.  It is the only code of
the worker guaranteed to run on every exit path. -/
def runFinally (s : StreamState) : StreamState :=
  { s with is_running := false, current_turn := 0 }

/-- `StreamManager._run_stream`, the worker thread body.  If setup
raises, the outer `except` records `Fatal: ...` and control reaches
`finally` directly — in particular `stop_idle_animation()` (which sits
between the loop and the summary, inside `try`) is skipped.  Otherwise
the starting topic is drawn (`random.choice(TOPICS)`), the main loop
runs, `stop_idle_animation()` executes, the summary is logged, and
`finally` runs. -/
def runStream (tse : Nat) (env : RunEnv) (s : StreamState) : RunOutcome :=
  match env.setupExc with
  | some msg =>
    { state := runFinally { s with errors := s.errors ++ [s!"Fatal: {msg}"] }
      successful_turns := 0
      failed_turns := 0
      idle_stopped := false
      history := env.initHistory
      switches := [] }
  | none =>
    let topic0 := env.choose TOPICS
    let init : LoopState :=
      { current_turn := s.current_turn
        current_topic := topic0
        errors := s.errors
        successful_turns := 0
        failed_turns := 0
        history := env.initHistory
        switches := [] }
    let fin := runLoop TOPICS tse s.max_turns env.choose env.outcomes env.stopFlag init
    { state := runFinally
        { s with
          current_turn := fin.current_turn
          current_topic := fin.current_topic
          errors := fin.errors }
      successful_turns := fin.successful_turns
      failed_turns := fin.failed_turns
      idle_stopped := true
      history := fin.history
      switches := fin.switches }

/-- A concrete `random.choice` oracle used by witnesses: the head of
the list. -/
def chooseHead (l : List String) : String := l.headD ""

/-- The loop state at the top of the main loop on a fresh run: counters
zeroed by the worker prologue, starting topic drawn from `TOPICS`. -/
def initLoopState : LoopState :=
  { current_turn := 0
    current_topic := chooseHead TOPICS
    errors := []
    successful_turns := 0
    failed_turns := 0
    history := []
    switches := [] }

/-- A concrete per-attempt outcome function: fails three times, then
succeeds. -/
def failThenOk : Nat → Except String Nat :=
  fun j => if j < 3 then .error "rate limit" else .ok 42

/-- A concrete environment in which a setup call of the worker (for
example the opening `text_to_speech` after exhausting its retries)
raises, so the outer `except` path is taken. -/
def envSetupFail : RunEnv :=
  { setupExc := some "ElevenLabs API error"
    choose := chooseHead
    outcomes := fun _ => .ok "reply"
    stopFlag := fun _ => false
    openingTtsOk := true
    initHistory := [] }

/-- A concrete environment for a clean run: no setup exception, every
turn succeeds, the stop flag is never set. -/
def envAllOk : RunEnv :=
  { setupExc := none
    choose := chooseHead
    outcomes := fun _ => .ok "reply"
    stopFlag := fun _ => false
    openingTtsOk := true
    initHistory := [] }

/-- The manager state right after an accepted `start_stream` with
`max_turns = 5`, as the worker thread sees it. -/
def runningState : StreamState :=
  { is_running := true
    current_turn := 0
    current_topic := ""
    max_turns := 5
    errors := []
    stop_flag := false }

/-- Claim C1: at most one conversation run is active.  A `start_stream`
call on a running manager is rejected and spawns no worker; and since
each call body is atomic under `self._lock`, two concurrent
`start_stream` calls on a non-running manager execute in one of the two
sequential orders `twoStarts s m1 m2` / `twoStarts s m2 m1` (both
instances of this statement): the first is accepted, the second
receives the already-running rejection, exactly one worker is spawned,
and `current_turn` ends at 0, uncorrupted. -/
theorem c1_single_active_run (s : StreamState) (m m1 m2 : Nat) :
    (s.is_running = true →
      (start_stream s m).result.success = false ∧
      (start_stream s m).spawned = false) ∧
    (s.is_running = false →
      (twoStarts s m1 m2).1.result.success = true ∧
      (twoStarts s m1 m2).2.result.success = false ∧
      (twoStarts s m1 m2).2.result.message = "Stream is already running" ∧
      (twoStarts s m1 m2).1.spawned.toNat + (twoStarts s m1 m2).2.spawned.toNat = 1 ∧
      (twoStarts s m1 m2).2.state.current_turn = 0) := by
  constructor
  · intro h
    simp [start_stream, h]
  · intro h
    simp [twoStarts, start_stream, h]

/-- Witness for C1 at concrete states: a running manager rejects, and a
fresh manager accepts exactly one of two serialized calls. -/
theorem c1_single_active_run_witness :
    ((start_stream runningState 5).result.success = false ∧
     (start_stream runningState 5).spawned = false) ∧
    ((twoStarts initState 5 7).1.result.success = true ∧
     (twoStarts initState 5 7).2.result.success = false ∧
     (twoStarts initState 5 7).2.result.message = "Stream is already running" ∧
     (twoStarts initState 5 7).1.spawned.toNat + (twoStarts initState 5 7).2.spawned.toNat = 1 ∧
     (twoStarts initState 5 7).2.state.current_turn = 0) :=
  ⟨(c1_single_active_run runningState 5 5 7).1 rfl,
   (c1_single_active_run initState 5 5 7).2 rfl⟩

/-- Claim C2: `start_stream` on a running manager returns a failure
result carrying the current status and mutates nothing; otherwise it
resets `current_turn`, `current_topic`, `errors`, clears the stop flag,
sets `is_running`, stores `max_turns`, and returns a success result
whose status snapshot shows exactly the just-initialized values. -/
theorem c2_start_stream_spec (s : StreamState) (m : Nat) :
    (s.is_running = true →
      (start_stream s m).result.success = false ∧
      (start_stream s m).result.status = get_status s ∧
      (start_stream s m).state = s) ∧
    (s.is_running = false →
      (start_stream s m).result.success = true ∧
      (start_stream s m).state =
        { s with
          max_turns := m
          current_turn := 0
          current_topic := ""
          errors := []
          stop_flag := false
          is_running := true } ∧
      (start_stream s m).result.status =
        { is_running := true
          current_turn := 0
          current_topic := ""
          max_turns := m
          errors := [] }) := by
  constructor
  · intro h
    simp [start_stream, h]
  · intro h
    simp [start_stream, h, get_status, lastN]

/-- Witness for C2 at concrete states. -/
theorem c2_start_stream_spec_witness :
    ((start_stream runningState 9).result.success = false ∧
     (start_stream runningState 9).result.status = get_status runningState ∧
     (start_stream runningState 9).state = runningState) ∧
    ((start_stream initState 9).result.success = true ∧
     (start_stream initState 9).state =
       { initState with
         max_turns := 9
         current_turn := 0
         current_topic := ""
         errors := []
         stop_flag := false
         is_running := true } ∧
     (start_stream initState 9).result.status =
       { is_running := true
         current_turn := 0
         current_topic := ""
         max_turns := 9
         errors := [] }) :=
  ⟨(c2_start_stream_spec runningState 9).1 rfl,
   (c2_start_stream_spec initState 9).2 rfl⟩

/-- Every executed loop iteration increments exactly one of the two
counters: `successful_turns + failed_turns` grows by exactly one per
turn, whatever the outcome. -/
theorem doTurn_counts (topics : List String) (tse mt : Nat)
    (choose : List String → String) (turn : Nat) (o : TurnOutcome)
    (st : LoopState) :
    (doTurn topics tse mt choose turn o st).successful_turns +
      (doTurn topics tse mt choose turn o st).failed_turns =
      st.successful_turns + st.failed_turns + 1 := by
  cases o with
  | ok text =>
    cases hsw : switchCond tse mt turn <;> simp [doTurn, hsw] <;> try omega
  | ttsFailed text =>
    simp [doTurn] <;> try omega
  | raisedExc msg =>
    simp [doTurn] <;> try omega

/-- If the stop flag first reads set at boundary `k` (it is set exactly
at boundaries `≥ k`), the loop started at `turn` with `fuel` iterations
left executes exactly `min (k - turn) fuel` further turns. -/
theorem runLoopAux_counts (topics : List String) (tse mt : Nat)
    (choose : List String → String) (outcomes : Nat → TurnOutcome)
    (stopFlag : Nat → Bool) (k : Nat)
    (hk : ∀ j, stopFlag j = true ↔ k ≤ j) :
    ∀ (fuel turn : Nat) (st : LoopState),
      (runLoopAux topics tse mt choose outcomes stopFlag turn fuel st).successful_turns +
        (runLoopAux topics tse mt choose outcomes stopFlag turn fuel st).failed_turns =
        st.successful_turns + st.failed_turns + min (k - turn) fuel := by
  intro fuel
  induction fuel with
  | zero =>
    intro turn st
    simp [runLoopAux]
  | succ n ih =>
    intro turn st
    by_cases hf : stopFlag turn = true
    · have hkt : k ≤ turn := (hk turn).1 hf
      have hmin : min (k - turn) (n + 1) = 0 := by omega
      simp [runLoopAux, hf, hmin]
    · have hkt : ¬ k ≤ turn := fun hle => hf ((hk turn).2 hle)
      have heq := ih (turn + 1) (doTurn topics tse mt choose turn (outcomes turn) st)
      have hc := doTurn_counts topics tse mt choose turn (outcomes turn) st
      simp only [runLoopAux, hf, if_false, Bool.false_eq_true]
      omega

/-- The loop executes at most `fuel` turns in any environment. -/
theorem runLoopAux_counts_le (topics : List String) (tse mt : Nat)
    (choose : List String → String) (outcomes : Nat → TurnOutcome)
    (stopFlag : Nat → Bool) :
    ∀ (fuel turn : Nat) (st : LoopState),
      (runLoopAux topics tse mt choose outcomes stopFlag turn fuel st).successful_turns +
        (runLoopAux topics tse mt choose outcomes stopFlag turn fuel st).failed_turns ≤
        st.successful_turns + st.failed_turns + fuel := by
  intro fuel
  induction fuel with
  | zero =>
    intro turn st
    simp [runLoopAux]
  | succ n ih =>
    intro turn st
    by_cases hf : stopFlag turn = true
    · simp [runLoopAux, hf] <;> try omega
    · have hle := ih (turn + 1) (doTurn topics tse mt choose turn (outcomes turn) st)
      have hc := doTurn_counts topics tse mt choose turn (outcomes turn) st
      simp only [runLoopAux, hf, if_false, Bool.false_eq_true]
      omega

/-- Claim C3: `stop_stream` on a non-running manager fails and mutates
nothing (the stop flag keeps its value); on a running manager it sets
the stop flag and returns success at once — `is_running` is still true
when it returns, i.e. it does not wait for the worker.  The worker loop
then exits at the first boundary where the flag reads set: if the flag
reads set exactly at boundaries `≥ k`, the loop executes exactly
`min k max_turns` turns. -/
theorem c3_stop_stream_spec (s : StreamState) :
    (s.is_running = false →
      (stop_stream s).result.success = false ∧
      (stop_stream s).state = s) ∧
    (s.is_running = true →
      (stop_stream s).result.success = true ∧
      (stop_stream s).state = { s with stop_flag := true } ∧
      (stop_stream s).state.is_running = true) ∧
    (∀ (topics : List String) (tse mt : Nat) (choose : List String → String)
       (outcomes : Nat → TurnOutcome) (stopFlag : Nat → Bool) (k : Nat)
       (st : LoopState),
      (∀ j, stopFlag j = true ↔ k ≤ j) →
      (runLoop topics tse mt choose outcomes stopFlag st).successful_turns +
        (runLoop topics tse mt choose outcomes stopFlag st).failed_turns =
        st.successful_turns + st.failed_turns + min k mt) := by
  refine ⟨?_, ?_, ?_⟩
  · intro h
    simp [stop_stream, h]
  · intro h
    simp [stop_stream, h]
  · intro topics tse mt choose outcomes stopFlag k st hk
    have := runLoopAux_counts topics tse mt choose outcomes stopFlag k hk mt 0 st
    simpa [runLoop] using this

/-- Witness for C3 at concrete inputs: stopping a fresh manager fails
untouched; stopping a running one sets the flag; a loop whose flag
first reads set at boundary 2 executes exactly 2 of its 5 turns. -/
theorem c3_stop_stream_spec_witness :
    ((stop_stream initState).result.success = false ∧
     (stop_stream initState).state = initState) ∧
    ((stop_stream runningState).result.success = true ∧
     (stop_stream runningState).state = { runningState with stop_flag := true } ∧
     (stop_stream runningState).state.is_running = true) ∧
    ((runLoop TOPICS 8 5 chooseHead (fun _ => .ok "r")
        (fun j => decide (2 ≤ j)) initLoopState).successful_turns +
      (runLoop TOPICS 8 5 chooseHead (fun _ => .ok "r")
        (fun j => decide (2 ≤ j)) initLoopState).failed_turns =
      initLoopState.successful_turns + initLoopState.failed_turns + min 2 5) :=
  ⟨(c3_stop_stream_spec initState).1 rfl,
   (c3_stop_stream_spec runningState).2.1 rfl,
   (c3_stop_stream_spec initState).2.2 TOPICS 8 5 chooseHead (fun _ => .ok "r")
     (fun j => decide (2 ≤ j)) 2 initLoopState
     (fun j => by simp)⟩

/-- Claim C4: on a turn that completes without error, a topic switch
fires iff `(turn + 1) % topicSwitchEvery == 0` and
`turn < maxTurns - 2` (over the integers); when it fires, the new topic
is drawn from the configured topic set excluding the current topic and
the conversation history is cleared; when it does not, topic and
history are left alone (the reply only is appended). -/
theorem c4_topic_switch (topics : List String) (tse mt turn : Nat)
    (choose : List String → String) (text : String) (st : LoopState)
    (hch : ∀ l : List String, l ≠ [] → choose l ∈ l)
    (hne : topics.filter (fun t => t ≠ st.current_topic) ≠ []) :
    (switchCond tse mt turn = true ↔
      ((turn + 1) % tse = 0 ∧ (turn : Int) < (mt : Int) - 2)) ∧
    (switchCond tse mt turn = true →
      (doTurn topics tse mt choose turn (.ok text) st).switches = st.switches ++ [turn] ∧
      (doTurn topics tse mt choose turn (.ok text) st).current_topic ∈ topics ∧
      (doTurn topics tse mt choose turn (.ok text) st).current_topic ≠ st.current_topic ∧
      (doTurn topics tse mt choose turn (.ok text) st).history = []) ∧
    (switchCond tse mt turn = false →
      (doTurn topics tse mt choose turn (.ok text) st).switches = st.switches ∧
      (doTurn topics tse mt choose turn (.ok text) st).current_topic = st.current_topic ∧
      (doTurn topics tse mt choose turn (.ok text) st).history = st.history ++ [text]) := by
  refine ⟨?_, ?_, ?_⟩
  · simp [switchCond]
  · intro hsw
    have hmem := hch _ hne
    rw [List.mem_filter] at hmem
    have htop : (doTurn topics tse mt choose turn (.ok text) st).current_topic =
        choose (topics.filter (fun t => t ≠ st.current_topic)) := by
      simp [doTurn, hsw]
    refine ⟨by simp [doTurn, hsw], ?_, ?_, by simp [doTurn, hsw, reset_history]⟩
    · rw [htop]
      exact hmem.1
    · rw [htop]
      simpa using hmem.2
  · intro hsw
    simp [doTurn, hsw]

/-- Witness for C4 at the configured topics, `topicSwitchEvery = 8`,
`maxTurns = 20`, turn index 7. -/
theorem c4_topic_switch_witness :
    (switchCond 8 20 7 = true ↔
      ((7 + 1) % 8 = 0 ∧ (7 : Int) < (20 : Int) - 2)) ∧
    (switchCond 8 20 7 = true →
      (doTurn TOPICS 8 20 chooseHead 7 (.ok "t") initLoopState).switches =
        initLoopState.switches ++ [7] ∧
      (doTurn TOPICS 8 20 chooseHead 7 (.ok "t") initLoopState).current_topic ∈ TOPICS ∧
      (doTurn TOPICS 8 20 chooseHead 7 (.ok "t") initLoopState).current_topic ≠
        initLoopState.current_topic ∧
      (doTurn TOPICS 8 20 chooseHead 7 (.ok "t") initLoopState).history = []) ∧
    (switchCond 8 20 7 = false →
      (doTurn TOPICS 8 20 chooseHead 7 (.ok "t") initLoopState).switches =
        initLoopState.switches ∧
      (doTurn TOPICS 8 20 chooseHead 7 (.ok "t") initLoopState).current_topic =
        initLoopState.current_topic ∧
      (doTurn TOPICS 8 20 chooseHead 7 (.ok "t") initLoopState).history =
        initLoopState.history ++ ["t"]) :=
  c4_topic_switch TOPICS 8 20 7 chooseHead "t" initLoopState
    (fun l hl => by
      cases l with
      | nil => exact absurd rfl hl
      | cons a as => exact List.mem_cons_self a as)
    (by decide)

/-- Claim C5 counterexample: the claim asserts that with
`topicSwitchEvery = 8` and `maxTurns = 10` the switch never fires
(saying index 7 fails the guard `turn < 8`), and that with
`maxTurns = 20` it fires exactly once.  In fact `7 < 10 - 2` holds, so
the guard passes: an all-successful 10-turn run switches at index 7,
and a 20-turn run switches at two indices (7 and 15), not one. -/
theorem c5_switch_instances_counterexample :
    switchCond 8 10 7 = true ∧
    (runLoop TOPICS 8 10 chooseHead (fun _ => .ok "r") (fun _ => false)
      initLoopState).switches = [7] ∧
    ((List.range 20).filter (fun i => switchCond 8 20 i)).length = 2 := by
  refine ⟨rfl, rfl, rfl⟩

/-- Claim C5 as amended: with `topicSwitchEvery = 8` the switch
condition holds at exactly one turn index (7) for `maxTurns = 10`, and
at exactly two (7 and 15) for `maxTurns = 20`; all-successful runs
switch at exactly those indices. -/
theorem c5_switch_instances_amended :
    (List.range 10).filter (fun i => switchCond 8 10 i) = [7] ∧
    (List.range 20).filter (fun i => switchCond 8 20 i) = [7, 15] ∧
    (runLoop TOPICS 8 10 chooseHead (fun _ => .ok "r") (fun _ => false)
      initLoopState).switches = [7] ∧
    (runLoop TOPICS 8 20 chooseHead (fun _ => .ok "r") (fun _ => false)
      initLoopState).switches = [7, 15] := by
  refine ⟨rfl, rfl, rfl, rfl⟩

/-- Claim C8 counterexample: the claim asserts the idle-animation stop
runs on every exit path of the worker.  On the unexpected-exception
path (here: setup fails after the idle animations were started),
`stop_idle_animation()` — which sits inside the `try`, between the loop
and the summary, not in the `finally` block — is skipped, although
`is_running` and `current_turn` are still reset by `finally`. -/
theorem c8_termination_counterexample :
    (runStream 8 envSetupFail runningState).idle_stopped = false ∧
    (runStream 8 envSetupFail runningState).state.is_running = false ∧
    (runStream 8 envSetupFail runningState).state.current_turn = 0 :=
  ⟨rfl, rfl, rfl⟩

/-- Claim C8 as amended: on every exit path of the worker the `finally`
block sets `is_running = false` and resets `current_turn = 0`; the
idle-animation stop, however, executes exactly on the paths that leave
the `try` block normally (natural completion or cancellation), not when
an unexpected exception escapes to the outer handler. -/
theorem c8_termination_amended (tse : Nat) (env : RunEnv) (s : StreamState) :
    (runStream tse env s).state.is_running = false ∧
    (runStream tse env s).state.current_turn = 0 ∧
    ((runStream tse env s).idle_stopped = true ↔ env.setupExc = none) := by
  rcases hse : env.setupExc with _ | msg <;> simp [runStream, hse, runFinally]

/-- Claim C9: for `maxTurns` in `[1, 100]` and any per-turn outcomes,
a run that completes naturally (stop flag never set) has
`successful_turns + failed_turns ≤ maxTurns`, and `current_turn` is 0
once the run has ended. -/
theorem c9_turn_count_bound (tse : Nat) (env : RunEnv) (s : StreamState)
    (h1 : 1 ≤ s.max_turns) (h2 : s.max_turns ≤ 100)
    (hnc : ∀ j, env.stopFlag j = false) :
    (runStream tse env s).successful_turns +
      (runStream tse env s).failed_turns ≤ s.max_turns ∧
    (runStream tse env s).state.current_turn = 0 := by
  refine ⟨?_, ?_⟩
  · rcases hse : env.setupExc with _ | msg
    · have hle := runLoopAux_counts_le TOPICS tse s.max_turns env.choose env.outcomes
        env.stopFlag s.max_turns 0
        { current_turn := s.current_turn
          current_topic := env.choose TOPICS
          errors := s.errors
          successful_turns := 0
          failed_turns := 0
          history := env.initHistory
          switches := [] }
      simp only [runStream, hse, runLoop]
      simpa using hle
    · simp [runStream, hse]
  · rcases hse : env.setupExc with _ | msg <;> simp [runStream, hse, runFinally]

/-- Witness for C9: a clean 5-turn run. -/
theorem c9_turn_count_bound_witness :
    (runStream 8 envAllOk runningState).successful_turns +
      (runStream 8 envAllOk runningState).failed_turns ≤ runningState.max_turns ∧
    (runStream 8 envAllOk runningState).state.current_turn = 0 :=
  c9_turn_count_bound 8 envAllOk runningState (by decide) (by decide)
    (fun j => rfl)

/-- If attempts `a, a+1, ..., a+k-1` raise a retryable exception and
attempt `a+k` succeeds (with `a+k ≤ max_retries`), the retry loop
returns the success value after sleeping `backoffDelay` for each failed
attempt, in order. -/
theorem retryGo_ok_of_failures {ε α : Type} (retryable : ε → Bool)
    (d b : ℚ) (f : Nat → Except ε α) (N : Nat) (e : ε) (v : α)
    (hr : retryable e = true) :
    ∀ (k a : Nat), a + k ≤ N →
      (∀ j, j < k → f (a + j) = .error e) →
      f (a + k) = .ok v →
      retryGo retryable d b f N a (N - a) =
        (.ok v, (List.range k).map (fun j => backoffDelay d b (a + j))) := by
  intro k
  induction k with
  | zero =>
    intro a _ _ hok
    rw [retryGo]
    simp only [Nat.add_zero] at hok
    simp [hok]
  | succ n ih =>
    intro a hle hfail hok
    have hf0 : f a = .error e := by simpa using hfail 0 (Nat.succ_pos n)
    have haN : a ≠ N := by omega
    have hfuel : N - a = (N - (a + 1)) + 1 := by omega
    have hrec := ih (a + 1) (by omega)
      (fun j hj => by
        have := hfail (j + 1) (by omega)
        simpa [Nat.add_assoc, Nat.add_comm 1 j] using this)
      (by
        have : a + 1 + n = a + (n + 1) := by omega
        rw [this]
        exact hok)
    rw [hfuel, retryGo, hf0]
    simp only [hr, if_true, haN, if_false, hrec]
    simp [List.range_succ_eq_map, List.map_map, Function.comp]
    intro j _
    congr 1
    omega

/-- If every attempt from `a` through `max_retries` raises a retryable
exception, the retry loop re-raises the exception after sleeping once
per retry. -/
theorem retryGo_err_of_all_failures {ε α : Type} (retryable : ε → Bool)
    (d b : ℚ) (f : Nat → Except ε α) (N : Nat) (e : ε)
    (hr : retryable e = true) :
    ∀ (fuel a : Nat), a + fuel = N →
      (∀ j, a ≤ j → j ≤ N → f j = .error e) →
      retryGo retryable d b f N a fuel =
        (.error e, (List.range fuel).map (fun j => backoffDelay d b (a + j))) := by
  intro fuel
  induction fuel with
  | zero =>
    intro a ha hfail
    have hfa : f a = .error e := hfail a le_rfl (by omega)
    have haN : a = N := by omega
    rw [retryGo, hfa]
    simp [hr, haN]
  | succ n ih =>
    intro a ha hfail
    have hfa : f a = .error e := hfail a le_rfl (by omega)
    have haN : a ≠ N := by omega
    have hrec := ih (a + 1) (by omega) (fun j h1 h2 => hfail j (by omega) h2)
    rw [retryGo, hfa]
    simp only [hr, if_true, haN, if_false, hrec]
    simp [List.range_succ_eq_map, List.map_map, Function.comp]
    intro j _
    congr 1
    omega

/-- Claim C6: with exponential base 2, a retryable failure at attempt
`j` is followed by a sleep of `d * 2 ^ j`; an operation failing `k ≤ N`
times then succeeding returns the success value after those `k` sleeps;
one failing on every one of the `N + 1` attempts sleeps `N` times and
re-raises the original exception unchanged; a non-retryable failure
propagates immediately with no sleep.  With `N = 3, d = 1`: failing
three times then succeeding sleeps `1 + 2 + 4 = 7` total; failing four
times raises the original failure. -/
theorem c6_retry_backoff_spec {ε α : Type} (retryable : ε → Bool) :
    (∀ (N : Nat) (d : ℚ) (f : Nat → Except ε α) (e : ε) (v : α) (k : Nat),
      k ≤ N → (∀ j, j < k → f j = .error e) → retryable e = true → f k = .ok v →
      retry_with_backoff N d 2 retryable f =
        (.ok v, (List.range k).map (fun j => d * 2 ^ j))) ∧
    (∀ (N : Nat) (d : ℚ) (f : Nat → Except ε α) (e : ε),
      (∀ j, j ≤ N → f j = .error e) → retryable e = true →
      retry_with_backoff N d 2 retryable f =
        (.error e, (List.range N).map (fun j => d * 2 ^ j))) ∧
    (∀ (N : Nat) (d : ℚ) (f : Nat → Except ε α) (e : ε),
      f 0 = .error e → retryable e = false →
      retry_with_backoff N d 2 retryable f = (.error e, [])) ∧
    (∀ (f : Nat → Except ε α) (e : ε) (v : α),
      (∀ j, j < 3 → f j = .error e) → retryable e = true → f 3 = .ok v →
      retry_with_backoff 3 1 2 retryable f = (.ok v, [1, 2, 4]) ∧
      (retry_with_backoff 3 1 2 retryable f).2.sum = 7) ∧
    (∀ (f : Nat → Except ε α) (e : ε),
      (∀ j, j ≤ 3 → f j = .error e) → retryable e = true →
      (retry_with_backoff 3 1 2 retryable f).1 = .error e) := by
  have hok : ∀ (N : Nat) (d : ℚ) (f : Nat → Except ε α) (e : ε) (v : α) (k : Nat),
      k ≤ N → (∀ j, j < k → f j = .error e) → retryable e = true → f k = .ok v →
      retry_with_backoff N d 2 retryable f =
        (.ok v, (List.range k).map (fun j => d * 2 ^ j)) := by
    intro N d f e v k hk hfail hr hfok
    have h := retryGo_ok_of_failures retryable d 2 f N e v hr k 0 (by omega)
      (fun j hj => by simpa using hfail j hj) (by simpa using hfok)
    rw [retry_with_backoff]
    simpa [backoffDelay] using h
  have herr : ∀ (N : Nat) (d : ℚ) (f : Nat → Except ε α) (e : ε),
      (∀ j, j ≤ N → f j = .error e) → retryable e = true →
      retry_with_backoff N d 2 retryable f =
        (.error e, (List.range N).map (fun j => d * 2 ^ j)) := by
    intro N d f e hfail hr
    have h := retryGo_err_of_all_failures retryable d 2 f N e hr N 0 (by omega)
      (fun j h1 h2 => hfail j h2)
    rw [retry_with_backoff]
    simpa [backoffDelay] using h
  refine ⟨hok, herr, ?_, ?_, ?_⟩
  · intro N d f e hf0 hr
    rw [retry_with_backoff, retryGo, hf0]
    simp [hr]
  · intro f e v hfail hr hfok
    have h := hok 3 1 f e v 3 le_rfl hfail hr hfok
    rw [h]
    norm_num [List.range_succ]
  · intro f e hfail hr
    rw [herr 3 1 f e hfail hr]

/-- Witness for C6: an operation failing three times then returning 42
succeeds with sleeps `[1, 2, 4]` (total 7); the same failures under a
policy that does not retry them propagate at once with no sleep; an
operation failing on all four attempts raises the original failure. -/
theorem c6_retry_backoff_spec_witness :
    retry_with_backoff 3 1 2 (fun _ : String => true) failThenOk = (.ok 42, [1, 2, 4]) ∧
    (retry_with_backoff 3 1 2 (fun _ : String => true) failThenOk).2.sum = 7 ∧
    retry_with_backoff 3 1 2 (fun s : String => decide (s ≠ "rate limit")) failThenOk =
      (.error "rate limit", []) ∧
    (retry_with_backoff 3 1 2 (fun _ : String => true)
      (fun _ => .error "rate limit") : Except String Nat × List ℚ).1 = .error "rate limit" := by
  have h4 := (c6_retry_backoff_spec (fun _ : String => true)).2.2.2.1 failThenOk
    "rate limit" 42
    (fun j hj => by simp [failThenOk, hj]) rfl (by simp [failThenOk])
  have h3 := (c6_retry_backoff_spec (fun s : String => decide (s ≠ "rate limit"))).2.2.1
    3 1 failThenOk "rate limit" (by simp [failThenOk]) (by simp)
  have h5 := (c6_retry_backoff_spec (fun _ : String => true)).2.2.2.2
    (fun _ => (Except.error "rate limit" : Except String Nat)) "rate limit"
    (fun j _ => rfl) rfl
  exact ⟨h4.1, h4.2, h3, h5⟩

/-- Claim C7 evaluated on the failing input: when every attempt of
`generate_response` raises `RateLimitError` (the only exception class
the function re-raises to its decorator), the decorator exhausts its
three retries and re-raises the error — the fallback utterance is not
substituted, and the worker per-turn handler then counts the turn as
failed.  This contradicts the claim (and the function docstring, which
promises a fallback return when all retries fail). -/
theorem c7_rate_limit_exhaustion_no_fallback :
    generateWithRetry [] (fun _ => GenOutcome.rateLimit "Rate limit reached") =
      (Except.error (GenExc.rateLimit "Rate limit reached"), [1, 2, 4]) ∧
    (∀ h : List String,
      (generateWithRetry h (fun _ => GenOutcome.rateLimit "Rate limit reached")).1 ≠
        Except.ok (FALLBACK, h ++ [FALLBACK])) ∧
    (doTurn TOPICS TOPIC_SWITCH_EVERY MAX_TURNS chooseHead 0
      (TurnOutcome.raisedExc "Rate limit reached") initLoopState).failed_turns = 1 ∧
    (doTurn TOPICS TOPIC_SWITCH_EVERY MAX_TURNS chooseHead 0
      (TurnOutcome.raisedExc "Rate limit reached") initLoopState).successful_turns = 0 := by
  have h := retryGo_err_of_all_failures (fun _ : GenExc => true) 1 2
    (fun attempt => generate_response []
      ((fun _ => GenOutcome.rateLimit "Rate limit reached") attempt))
    3 (.rateLimit "Rate limit reached") rfl 3 0 (by omega)
    (fun j _ _ => rfl)
  have hmain : generateWithRetry [] (fun _ => GenOutcome.rateLimit "Rate limit reached") =
      (Except.error (GenExc.rateLimit "Rate limit reached"), [1, 2, 4]) := by
    rw [generateWithRetry, retry_with_backoff, h]
    norm_num [backoffDelay, List.range_succ]
  refine ⟨hmain, ?_, rfl, rfl⟩
  intro hist
  have hh := retryGo_err_of_all_failures (fun _ : GenExc => true) 1 2
    (fun attempt => generate_response hist
      ((fun _ => GenOutcome.rateLimit "Rate limit reached") attempt))
    3 (.rateLimit "Rate limit reached") rfl 3 0 (by omega)
    (fun j _ _ => rfl)
  rw [generateWithRetry, retry_with_backoff, hh]
  simp

/-- Claim C10: `text_to_speech` returns `False` immediately — no retry
attempt consumed, no backoff sleep — when the ElevenLabs error message
mentions quota (case-insensitively) or when writing the file raises
`OSError`; a non-quota API error or any other exception is re-raised to
the wrapper and retried up to 3 times (sleeping 1, 2, 4) before the
error propagates. -/
theorem c10_tts_error_paths :
    (∀ m : String, strContains (lowerStr m) "quota" = true →
      ttsWithRetry (fun _ => .apiError m) = (.ok false, [])) ∧
    (∀ m : String, ttsWithRetry (fun _ => .osError m) = (.ok false, [])) ∧
    (∀ m : String, strContains (lowerStr m) "quota" = false →
      ttsWithRetry (fun _ => .apiError m) = (.error (.api m), [1, 2, 4])) ∧
    (∀ m : String, ttsWithRetry (fun _ => .otherExc m) =
      (.error (.other m), [1, 2, 4])) := by
  refine ⟨?_, ?_, ?_, ?_⟩
  · intro m hq
    rw [ttsWithRetry, retry_with_backoff, retryGo]
    simp [text_to_speech, hq]
  · intro m
    rw [ttsWithRetry, retry_with_backoff, retryGo]
    simp [text_to_speech]
  · intro m hq
    have h := retryGo_err_of_all_failures (fun _ : TtsExc => true) 1 2
      (fun attempt => text_to_speech ((fun _ => TtsOutcome.apiError m) attempt))
      3 (.api m) rfl 3 0 (by omega)
      (fun j _ _ => by simp [text_to_speech, hq])
    rw [ttsWithRetry, retry_with_backoff, h]
    norm_num [backoffDelay, List.range_succ]
  · intro m
    have h := retryGo_err_of_all_failures (fun _ : TtsExc => true) 1 2
      (fun attempt => text_to_speech ((fun _ => TtsOutcome.otherExc m) attempt))
      3 (.other m) rfl 3 0 (by omega)
      (fun j _ _ => rfl)
    rw [ttsWithRetry, retry_with_backoff, h]
    norm_num [backoffDelay, List.range_succ]

/-- Witness for C10 at concrete error messages. -/
theorem c10_tts_error_paths_witness :
    ttsWithRetry (fun _ => .apiError "Quota exceeded for this key") = (.ok false, []) ∧
    ttsWithRetry (fun _ => .osError "No space left on device") = (.ok false, []) ∧
    ttsWithRetry (fun _ => .apiError "Invalid voice_id") =
      (.error (.api "Invalid voice_id"), [1, 2, 4]) ∧
    ttsWithRetry (fun _ => .otherExc "connection reset") =
      (.error (.other "connection reset"), [1, 2, 4]) :=
  ⟨c10_tts_error_paths.1 "Quota exceeded for this key" (by decide),
   c10_tts_error_paths.2.1 "No space left on device",
   c10_tts_error_paths.2.2.1 "Invalid voice_id" (by decide),
   c10_tts_error_paths.2.2.2 "connection reset"⟩

end AvatarStream
